import Mathlib

/-!
Verification development for the line_item_manager creation pipeline.

The embedding follows `line_item_manager/app_runner.py` and
`line_item_manager/config.py`.  Price points are modelled in integer cents
(the repository's bucket expansion works on hundredths of a currency unit),
so a CPM value of 1.23 is the natural number 123.  Modules of the
repository that are not present in the source tree (`utils`, `gam_config`,
`yaml_date`) are modelled from the specification where a claim depends on
them; each such definition carries a doc comment saying so.
-/

namespace LineItemManager

/-- One decimal digit rendered as its ASCII character. -/
def digitChar (d : Nat) : Char := Char.ofNat (48 + d)

/-- Digit characters of a positive number, most significant first; the
first argument is fuel bounding the recursion depth. -/
def natStrAux : Nat → Nat → List Char
  | 0, _ => []
  | fuel + 1, n =>
    if n = 0 then [] else natStrAux fuel (n / 10) ++ [digitChar (n % 10)]

/-- Decimal rendering of a natural number (the model of Python str for
the integer part of a price). -/
def natStr (n : Nat) : String :=
  if n = 0 then "0" else String.mk (natStrAux n n)

/-- Exactly-two-digit rendering of the hundredths part of a price. -/
def twoDigits (n : Nat) : String :=
  String.mk [digitChar (n / 10 % 10), digitChar (n % 10)]

/-- The model of Python %.2f formatting: a price of `n` cents displayed
with exactly two decimal places (`config.py`, `Config.cpm_names`). -/
def centsFormat (n : Nat) : String :=
  natStr (n / 100) ++ "." ++ twoDigits (n % 100)

/-- A price-granularity bucket, in integer cents (`min`, `max`,
`increment` of the schema granularity triple consumed by `config.py`). -/
structure Bucket where
  min : Nat
  max : Nat
  increment : Nat
deriving DecidableEq, Repr

/-- Modelled from the spec: `values_from_bucket` lives in the repository
`utils` module, which is not in the source tree.  Per the specification it
expands a bucket into the arithmetic sequence min, min+increment, ...
inclusive of max, each value decimal-exact to two places (hence integer
cents here); a min = max bucket yields exactly one value. -/
def values_from_bucket (b : Bucket) : List Nat :=
  if b.min > b.max then []
  else (List.range ((b.max - b.min) / b.increment + 1)).map
    (fun i => b.min + i * b.increment)

/-- The normalized CLI dictionary produced by
`CreateOptions.normalized_cli` (`app_runner.py`). -/
structure CliDict where
  network_code : Option Nat
  network_name : Option String
  private_key_file : String
  single_order : Bool
  bidder_code : List String
  test_run : Bool
  dry_run : Bool
  quiet : Bool
  verbose : List Bool
  skip_auto_archive : Bool
deriving DecidableEq, Repr

/-- Publisher section of the user configuration document. -/
structure Publisher where
  network_code : Option Nat
  network_name : Option String
deriving DecidableEq, Repr

/-- A line-item delivery goal as written by `Config.pre_create`. -/
structure Goal where
  goalType : String
  unitType : Option String
  units : Option Nat
deriving DecidableEq, Repr

/-- The line_item section of the user document, including the fields
`Config.pre_create` writes into it. -/
structure LineItemCfg where
  item_type : String
  name : String
  timezone : Option String
  start_datetime : Option String
  end_datetime : Option String
  start_dt : Option String
  start_dt_type : Option String
  end_dt : Option String
  unlimited_end_dt : Option Bool
  goal : Option Goal
deriving DecidableEq, Repr

/-- The rate section of the user document. -/
structure RateCfg where
  granularity_type : String
  granularity_custom : List Bucket
  vcpm : Option Nat
  cost_type : Option String
deriving DecidableEq, Repr

/-- The order section of the user document. -/
structure OrderCfg where
  name : String
deriving DecidableEq, Repr

/-- The user configuration document (what `load_file` returns). -/
structure UserDoc where
  publisher : Publisher
  line_item : LineItemCfg
  order : OrderCfg
  rate : RateCfg
deriving DecidableEq, Repr

/-- The test_run section of the packaged settings. -/
structure TestRunCfg where
  line_item_limit : Nat
deriving Repr

/-- The mgr section of the packaged settings. -/
structure MgrCfg where
  date_fmt : String
  timezone : String
  test_run : TestRunCfg
deriving Repr

/-- The packaged application settings (settings.yml, `Config.app`):
only the fields the embedded operations read. -/
structure AppCfg where
  mgr : MgrCfg
  price_granularity : String → List Bucket

/-- The mutable fields of the `Config` singleton (`config.py`), as
explicit state.  `_client` is a handle id; `_schema` a schema id;
`_app` a settings id — their contents are irrelevant to the claims,
only whether each cache is filled. -/
structure ConfigState where
  _schema : Option Nat
  _cpm_names : Option (List String)
  _app : Option Nat
  _client : Option Nat
  _cli : CliDict
  _user : Option UserDoc
deriving DecidableEq, Repr

/-- The cli property setter (`config.py` lines 69-74): installs the new
override layer and resets the client cache.  (`set_log_level` only
touches the logger.) -/
def Config.setCli (c : ConfigState) (obj : CliDict) : ConfigState :=
  { c with _cli := obj, _client := none }

/-- `Config.set_user_configfile` (`config.py` lines 92-96): the loaded
document is the argument (file loading is external). -/
def Config.set_user_configfile (c : ConfigState) (doc : UserDoc) : ConfigState :=
  { c with _user := some doc, _client := none, _cpm_names := none }

/-- `_reset_config_cache` (`app_runner.py` lines 82-88). -/
def reset_config_cache (c : ConfigState) : ConfigState :=
  { c with _schema := none, _cpm_names := none, _app := none,
           _client := none, _user := none }

/-- `Config.cpm_buckets` (`config.py`): custom buckets from the user
document, or the named standard tier resolved against the settings. -/
def Config.cpm_buckets (app : AppCfg) (u : UserDoc) : List Bucket :=
  if u.rate.granularity_type == "custom" then u.rate.granularity_custom
  else app.price_granularity u.rate.granularity_type

/-- All bucket values in declaration order, before deduplication. -/
def cpmValuesRaw (app : AppCfg) (u : UserDoc) : List Nat :=
  (Config.cpm_buckets app u).foldl
    (fun acc b => acc ++ values_from_bucket b) []

/-- The union of all bucket expansions (the Python set built inside
`Config.cpm_names`): the accumulated values, deduplicated. -/
def cpmCents (app : AppCfg) (u : UserDoc) : List Nat :=
  (cpmValuesRaw app u).dedup

/-- The canonical (untruncated) expansion stored in `_cpm_names`: the
value set sorted ascending, formatted to two decimals. -/
def canonical_cpm_names (app : AppCfg) (u : UserDoc) : List String :=
  (List.insertionSort (· ≤ ·) (cpmCents app u)).map centsFormat

/-- `Config.cpm_names` (`config.py` lines 131-142), with the state
threaded explicitly: memoize the full sorted expansion on first access,
then truncate the returned value (not the cache) when test_run is set.
Returns `none` when no user document is installed (the Python code would
fail on attribute access there). -/
def Config.cpm_names (app : AppCfg) (c : ConfigState) :
    Option (List String × ConfigState) :=
  match c._user with
  | none => none
  | some u =>
    let memo : List String × ConfigState :=
      match c._cpm_names with
      | some ns => (ns, c)
      | none =>
        let ns := canonical_cpm_names app u
        (ns, { c with _cpm_names := some ns })
    if c._cli.test_run then
      some (memo.1.take app.mgr.test_run.line_item_limit, memo.2)
    else
      some (memo.1, memo.2)

/-- ASCII upper-casing of one character. -/
def charUpper (c : Char) : Char :=
  if 'a' ≤ c ∧ c ≤ 'z' then Char.ofNat (c.toNat - 32) else c

/-- The model of the Python str.upper call on the item-type keywords
(`config.py` compares item_type.upper() against STANDARD and
SPONSORSHIP; ASCII suffices for these). -/
def upperAscii (s : String) : String :=
  String.mk (s.data.map charUpper)

/-- Python truthiness of the optional vcpm value (the `if vcpm:` test in
`Config.pre_create`): absent or zero is falsy. -/
def vcpmTruthy : Option Nat → Bool
  | none => false
  | some v => v != 0

/-- The run-mode name placeholder prepended by `pre_create` (a pair of
braces around the words run_mode in the source; braces escaped here). -/
def runModePlaceholder : String := "\x7b\x7b run_mode \x7d\x7d"

/-- `Config.pre_create` (`config.py` lines 151-198).  `validTZ` models
the pytz zone database; `dateParse` models `yaml_date.date_from_string`
(raw string, format, timezone to platform date) — both modules are
external to the embedded core. -/
def Config.pre_create (validTZ : String → Bool)
    (dateParse : String → String → String → String)
    (app : AppCfg) (u : UserDoc) : Except String UserDoc :=
  let li := u.line_item
  let is_standard := upperAscii li.item_type == "STANDARD"
  let is_sponsorship := upperAscii li.item_type == "SPONSORSHIP"
  let end_str := li.end_datetime
  let start_str := li.start_datetime
  let fmt := app.mgr.date_fmt
  let vcpm := u.rate.vcpm
  let tz_str := li.timezone.getD app.mgr.timezone
  if validTZ tz_str = false then
    Except.error ("Unknown Time Zone, " ++ tz_str)
  else
    let li := { li with name := runModePlaceholder ++ li.name }
    let ord := { u.order with name := runModePlaceholder ++ u.order.name }
    let li := { li with
      start_dt := some (match start_str with
        | some s => dateParse s fmt tz_str
        | none => "IMMEDIATELY"),
      start_dt_type := some (if start_str.isSome then "USE_START_DATE_TIME"
        else "IMMEDIATELY"),
      end_dt := end_str.map (fun s => dateParse s fmt tz_str),
      unlimited_end_dt := some end_str.isNone }
    let li := if is_sponsorship = false then
        { li with goal := some ⟨"NONE", none, none⟩ }
      else li
    if vcpmTruthy vcpm then
      if is_standard = false then
        Except.error "Specifying \x27vcpm\x27 requires using line item type \x27standard\x27"
      else
        Except.ok { u with
          line_item := { li with
            goal := some ⟨"LIFETIME", some "VIEWABLE_IMPRESSIONS", vcpm⟩ },
          order := ord,
          rate := { u.rate with cost_type := some "VCPM" } }
    else
      Except.ok { u with
        line_item := li,
        order := ord,
        rate := { u.rate with cost_type := some "CPM" } }

/-- Outcome of the CREATING phase call `gam.create_line_items()` — one
constructor per exception the orchestrator catches, plus normal
completion (`app_runner.py` lines 140-157). -/
inductive CreationOutcome where
  | ok
  | resourceNotActive (msg : String)
  | resourceNotFound (msg : String)
  | googleAdsError (msg : String)
  | valueError (msg : String)
  | keyboardInterrupt
deriving DecidableEq, Repr

/-- Outcome of the cleanup call `gam.cleanup()` (`app_runner.py`
lines 159-163). -/
inductive CleanupOutcome where
  | ok
  | googleAdsError (msg : String)
deriving DecidableEq, Repr

/-- Errors appended by the CREATING phase exception handlers
(`app_runner.py` lines 143-157). -/
def creationErrors : CreationOutcome → List String
  | .ok => []
  | .resourceNotActive m => ["Resource is not active: " ++ m]
  | .resourceNotFound m => ["Resource not found: " ++ m]
  | .googleAdsError m => ["Google Ads Error: " ++ m]
  | .valueError m => ["Unexpected result: " ++ m]
  | .keyboardInterrupt => ["User Interrupt"]

/-- Modelled from the spec: `GAMConfig.success` (module `gam_config` is
not in the source tree) starts false, and the orchestrator sets it true
only when the creation call returns normally (the `gam.success = True`
line right after `gam.create_line_items()` in `app_runner.py`). -/
def gamSuccess : CreationOutcome → Bool
  | .ok => true
  | _ => false

/-- Error appended by the cleanup exception handler (`app_runner.py`
lines 161-163). -/
def cleanupErrors : CleanupOutcome → List String
  | .ok => []
  | .googleAdsError m => ["Cleanup: Google Ads Error: " ++ m]

/-- Observable steps of one `create_line_items` run, in order. -/
inductive Ev where
  | auth
  | networkCheck
  | schemaGate
  | overrideCheck
  | preProcess
  | createPhase
  | cleanupCall
deriving DecidableEq, Repr

/-- Which steps touch the external ad platform: authentication, the
network display-name read, the creation calls, and cleanup. -/
def Ev.isExternal : Ev → Bool
  | .auth => true
  | .networkCheck => true
  | .createPhase => true
  | .cleanupCall => true
  | _ => false

/-- External-world outcomes for one run: everything the orchestrator
observes from its collaborators (yaml load, client factory, the GAM
network record, the schema validator, the bidder override check, the
creation and cleanup calls, and the resources actually created).  Line
items and creative associations are opaque ids, grouped as the GAM state
tracks them (`gam.li_objs`, `gam.lica_objs`). -/
structure ExtWorld where
  yamlOk : Bool
  authOk : Bool
  networkAccessDenied : Bool
  networkDisplayName : String
  schemaErrors : List String
  overrideMapError : Option String
  creation : CreationOutcome
  cleanup : CleanupOutcome
  li_objs : List (Option (List Nat))
  lica_objs : List (List Nat)
deriving DecidableEq, Repr

/-- `config.network_name` (`config.py`): CLI override first, then the
user document. -/
def resolved_network_name (cli : CliDict) (u : UserDoc) : Option String :=
  match cli.network_name with
  | some s => some s
  | none => u.publisher.network_name

/-- `CreateResult` (`app_runner.py` lines 64-71). -/
structure CreateResult where
  success : Bool
  errors : List String
  line_item_count : Nat
  lica_count : Nat
  line_items : List Nat
  licas : List (List Nat)
deriving DecidableEq, Repr

/-- Assembly of the final result (`app_runner.py` lines 165-183):
counts come from the resources actually tracked on the GAM state, and
the detail lists are filled only when requested. -/
def assembleResult (include_details : Bool) (success : Bool)
    (errors : List String) (li_objs : List (Option (List Nat)))
    (lica_objs : List (List Nat)) : CreateResult :=
  let itemLists := li_objs.map (fun o => o.getD [])
  { success := success && errors.isEmpty
    errors := errors
    line_item_count := (itemLists.map List.length).sum
    lica_count := (lica_objs.map List.length).sum
    line_items := if include_details then itemLists.flatten else []
    licas := if include_details then lica_objs else [] }

/-- The fatal-error prefix of `create_line_items` (`app_runner.py` lines
94-137): configfile load, partition-mode checks, authentication, network
verification, schema validation, bidder override check, `pre_create`.
Returns the pre-processed user document or the usage-error message, plus
the ordered list of steps performed. -/
def pipeline_gate (validTZ : String → Bool)
    (dateParse : String → String → String → String)
    (cli : CliDict) (u : UserDoc) (app : AppCfg) (ext : ExtWorld) :
    Except String UserDoc × List Ev :=
  if ext.yamlOk = false then
    (Except.error "Check your configfile.", [])
  else if cli.single_order = false ∧ cli.bidder_code = [] then
    (Except.error "You must use --single-order or provide at least one --bidder-code", [])
  else if cli.single_order = true ∧ cli.bidder_code ≠ [] then
    (Except.error "Use of --single-order and --bidder-code is not allowed.", [])
  else if ext.authOk = false then
    (Except.error "Check your private key file. Access failed.", [.auth])
  else if ext.networkAccessDenied = true then
    (Except.error "Access denied to Google account.", [.auth, .networkCheck])
  else if some ext.networkDisplayName ≠ resolved_network_name cli u then
    (Except.error "Network name mismatch!", [.auth, .networkCheck])
  else if ext.schemaErrors ≠ [] then
    (Except.error ("Validation errors: " ++ String.intercalate "; " ext.schemaErrors),
      [.auth, .networkCheck, .schemaGate])
  else
    match ext.overrideMapError with
    | some e => (Except.error e, [.auth, .networkCheck, .schemaGate, .overrideCheck])
    | none =>
      match Config.pre_create validTZ dateParse app u with
      | Except.error e =>
        (Except.error e,
          [.auth, .networkCheck, .schemaGate, .overrideCheck, .preProcess])
      | Except.ok u2 =>
        (Except.ok u2,
          [.auth, .networkCheck, .schemaGate, .overrideCheck, .preProcess])

/-- `create_line_items` (`app_runner.py` lines 90-183): after the fatal
prefix, run the CREATING phase, always run cleanup (the finally block),
append cleanup errors after creation errors, and assemble the result. -/
def create_line_items (validTZ : String → Bool)
    (dateParse : String → String → String → String)
    (cli : CliDict) (u : UserDoc) (app : AppCfg) (ext : ExtWorld)
    (include_details : Bool := false) :
    Except String CreateResult × List Ev :=
  match pipeline_gate validTZ dateParse cli u app ext with
  | (Except.error e, tr) => (Except.error e, tr)
  | (Except.ok _, tr) =>
    let errs := creationErrors ext.creation ++ cleanupErrors ext.cleanup
    (Except.ok (assembleResult include_details (gamSuccess ext.creation)
        errs ext.li_objs ext.lica_objs),
      tr ++ [.createPhase, .cleanupCall])

/-- All the conditions under which a run survives every stage before
`pre_create`: configfile loads, exactly one partition mode, successful
authentication, matching network, clean schema validation, clean bidder
override map. -/
def reachesPreCreate (cli : CliDict) (u : UserDoc) (ext : ExtWorld) : Prop :=
  ext.yamlOk = true ∧
  ¬(cli.single_order = false ∧ cli.bidder_code = []) ∧
  ¬(cli.single_order = true ∧ cli.bidder_code ≠ []) ∧
  ext.authOk = true ∧
  ext.networkAccessDenied = false ∧
  some ext.networkDisplayName = resolved_network_name cli u ∧
  ext.schemaErrors = [] ∧
  ext.overrideMapError = none

/-- `RESOURCE_MAP` (`app_runner.py` lines 17-22). -/
def RESOURCE_MAP : String → Option String := fun r =>
  if r == "config" then some "line_item_manager.yml"
  else if r == "template" then some "line_item_template.yml"
  else if r == "settings" then some "settings.yml"
  else if r == "schema" then some "schema.yml"
  else none

/-- `read_resource` (`app_runner.py` lines 186-189).  `reader` models
`utils.read_package_file` (module not in the source tree); the config
state is threaded untouched to make the no-mutation property explicit. -/
def read_resource (reader : String → String) (c : ConfigState)
    (resource : String) : Except String String × ConfigState :=
  match RESOURCE_MAP resource with
  | none => (Except.error ("Unknown resource " ++ resource), c)
  | some f => (Except.ok (reader f), c)

/-- Concrete zone database for witnesses: only UTC is recognized. -/
def tzReal : String → Bool := fun s => s == "UTC"

/-- Concrete date parser for witnesses: keeps the raw string. -/
def dParse : String → String → String → String := fun s _ _ => s

/-- Concrete packaged settings for witnesses: test-run limit 3, no named
standard tiers. -/
def appW : AppCfg :=
  { mgr := { date_fmt := "fmt", timezone := "UTC",
             test_run := { line_item_limit := 3 } },
    price_granularity := fun _ => [] }

/-- Concrete user document for witnesses: custom granularity with one
bucket expanding to eleven price points 0.00 to 1.00. -/
def userW : UserDoc :=
  { publisher := { network_code := some 1234, network_name := some "pub" },
    line_item := { item_type := "standard", name := "li", timezone := none,
                   start_datetime := none, end_datetime := none,
                   start_dt := none, start_dt_type := none, end_dt := none,
                   unlimited_end_dt := none, goal := none },
    order := { name := "ord" },
    rate := { granularity_type := "custom",
              granularity_custom := [⟨0, 100, 10⟩],
              vcpm := none, cost_type := none } }

/-- userW with an unrecognized timezone, for the C8 counterexample. -/
def userW8 : UserDoc :=
  { userW with line_item := { userW.line_item with
      timezone := some "Mars/Olympus" } }

/-- Concrete normalized CLI for witnesses: single-order mode, no test
run. -/
def cliW : CliDict :=
  { network_code := none, network_name := some "pub",
    private_key_file := "gam_creds.json", single_order := true,
    bidder_code := [], test_run := false, dry_run := false, quiet := false,
    verbose := [], skip_auto_archive := false }

/-- cliW with test-run mode enabled. -/
def cliT : CliDict := { cliW with test_run := true }

/-- Concrete external world for witnesses: every stage succeeds; two
tracked line-item groups (one of them with an unset item list, as the
getattr default allows) and two creative-association lists. -/
def extW : ExtWorld :=
  { yamlOk := true, authOk := true, networkAccessDenied := false,
    networkDisplayName := "pub", schemaErrors := [], overrideMapError := none,
    creation := .ok, cleanup := .ok,
    li_objs := [some [1, 2], none], lica_objs := [[5], [6, 7]] }

/-- extW with a cleanup failure, for the C1 witness. -/
def extC1 : ExtWorld := { extW with cleanup := .googleAdsError "boom" }

/-- Concrete config state for the C2 witness: user document installed,
caches empty, test-run off. -/
def cW : ConfigState :=
  { _schema := none, _cpm_names := none, _app := none, _client := none,
    _cli := cliW, _user := some userW }

/-- Concrete config state for the C4 witness: test-run on. -/
def cW4 : ConfigState := { cW with _cli := cliT }

/-- Concrete config state for the C5 counterexample: both caches filled
from the current layers. -/
def cW5 : ConfigState :=
  { _schema := none, _cpm_names := some ["9.99"], _app := none,
    _client := some 7, _cli := cliW, _user := some userW }

/-- A new override layer installed in the C5 counterexample. -/
def cliW5 : CliDict := { cliW with network_name := some "other" }

end LineItemManager

namespace LineItemManager

/-- The pre-processed user document of the witness run (what the gate
hands to the CREATING phase). -/
def uW2 : UserDoc :=
  match Config.pre_create tzReal dParse appW userW with
  | Except.ok v => v
  | Except.error _ => userW

/-- userW with a vcpm rate on a non-standard item type, for the C6
witness. -/
def userW6 : UserDoc :=
  { userW with
    line_item := { userW.line_item with item_type := "price_priority" },
    rate := { userW.rate with vcpm := some 5 } }

/-- cliW with both partition modes chosen, for the C7 witness. -/
def cliBoth : CliDict := { cliW with bidder_code := ["bidderA"] }

/-- cliW with neither partition mode chosen, for the C7 witness. -/
def cliNeither : CliDict := { cliW with single_order := false }

end LineItemManager

namespace LineItemManager

theorem digitChar_inj {a b : Nat} (ha : a < 10) (hb : b < 10)
    (h : digitChar a = digitChar b) : a = b := by
  interval_cases a <;> interval_cases b <;> simp_all [digitChar]

theorem map_digitChar_inj : ∀ (l₁ l₂ : List Nat), (∀ d ∈ l₁, d < 10) →
    (∀ d ∈ l₂, d < 10) → l₁.map digitChar = l₂.map digitChar → l₁ = l₂
  | [], [], _, _, _ => rfl
  | [], _ :: _, _, _, h => by simp at h
  | _ :: _, [], _, _, h => by simp at h
  | a :: l₁, b :: l₂, h₁, h₂, h => by
    simp only [List.map_cons, List.cons.injEq] at h
    have hd : a = b :=
      digitChar_inj (h₁ a (by simp)) (h₂ b (by simp)) h.1
    have ht : l₁ = l₂ :=
      map_digitChar_inj l₁ l₂ (fun d hd => h₁ d (by simp [hd]))
        (fun d hd => h₂ d (by simp [hd])) h.2
    rw [hd, ht]

theorem natStrAux_eq : ∀ (fuel n : Nat), n ≤ fuel →
    natStrAux fuel n = ((Nat.digits 10 n).map digitChar).reverse
  | 0, n, h => by
    have hn : n = 0 := Nat.le_zero.mp h
    subst hn
    simp [natStrAux]
  | fuel + 1, n, h => by
    by_cases h0 : n = 0
    · subst h0
      simp [natStrAux]
    · have hdiv : n / 10 ≤ fuel := by
        have := Nat.div_lt_self (Nat.pos_of_ne_zero h0) (by norm_num : 1 < 10)
        omega
      rw [natStrAux, if_neg h0, natStrAux_eq fuel (n / 10) hdiv,
        Nat.digits_def' (by norm_num : 1 < 10) (Nat.pos_of_ne_zero h0)]
      simp

theorem natStr_eq_digits (n : Nat) :
    natStr n =
      if n = 0 then "0"
      else String.mk (((Nat.digits 10 n).map digitChar).reverse) := by
  unfold natStr
  by_cases h : n = 0
  · simp [h]
  · rw [if_neg h, if_neg h, natStrAux_eq n n le_rfl]

theorem natStr_ne_zero_of_pos {n : Nat} (hn : n ≠ 0) : natStr n ≠ "0" := by
  intro h
  rw [natStr_eq_digits] at h
  rw [if_neg hn] at h
  have hdata : ((Nat.digits 10 n).map digitChar).reverse = ['0'] :=
    congrArg String.data h
  have hrev : (Nat.digits 10 n).map digitChar = ['0'] := by
    have := congrArg List.reverse hdata
    simpa using this
  have hlen : (Nat.digits 10 n).length = 1 := by
    have := congrArg List.length hrev
    simpa using this
  obtain ⟨d, hd⟩ := List.length_eq_one.mp hlen
  rw [hd] at hrev
  simp only [List.map_cons, List.map_nil, List.cons.injEq, and_true] at hrev
  have hd10 : d < 10 := Nat.digits_lt_base (by norm_num)
    (show d ∈ Nat.digits 10 n by simp [hd])
  have h0 : digitChar 0 = '0' := by decide
  have hd0 : d = 0 := digitChar_inj hd10 (by norm_num) (by rw [hrev, h0])
  have hn0 : n = 0 := by
    have hof := Nat.ofDigits_digits 10 n
    rw [hd, hd0] at hof
    simpa [Nat.ofDigits] using hof.symm
  exact hn hn0

theorem natStr_inj : Function.Injective natStr := by
  intro a b h
  by_cases ha : a = 0 <;> by_cases hb : b = 0
  · omega
  · exfalso
    exact natStr_ne_zero_of_pos hb (by rw [← h, ha]; rfl)
  · exfalso
    exact natStr_ne_zero_of_pos ha (by rw [h, hb]; rfl)
  · rw [natStr_eq_digits, natStr_eq_digits] at h
    rw [if_neg ha, if_neg hb] at h
    have hdata : ((Nat.digits 10 a).map digitChar).reverse =
        ((Nat.digits 10 b).map digitChar).reverse := congrArg String.data h
    have hrev : (Nat.digits 10 a).map digitChar = (Nat.digits 10 b).map digitChar := by
      have := congrArg List.reverse hdata
      simpa using this
    have hdig : Nat.digits 10 a = Nat.digits 10 b :=
      map_digitChar_inj _ _ (fun d hd => Nat.digits_lt_base (by norm_num) hd)
        (fun d hd => Nat.digits_lt_base (by norm_num) hd) hrev
    exact Nat.digits_inj_iff.mp hdig

theorem twoDigits_inj {a b : Nat} (ha : a < 100) (hb : b < 100)
    (h : twoDigits a = twoDigits b) : a = b := by
  have hdata := congrArg String.data h
  simp only [twoDigits, List.cons.injEq] at hdata
  have h1 : a / 10 % 10 = b / 10 % 10 :=
    digitChar_inj (Nat.mod_lt _ (by norm_num)) (Nat.mod_lt _ (by norm_num)) hdata.1
  have h2 : a % 10 = b % 10 :=
    digitChar_inj (Nat.mod_lt _ (by norm_num)) (Nat.mod_lt _ (by norm_num)) hdata.2.1
  omega

theorem centsFormat_inj : Function.Injective centsFormat := by
  intro a b h
  have hdata := congrArg String.data h
  have hexp : ∀ n : Nat, (centsFormat n).data =
      (natStr (n / 100)).data ++ ('.' :: (twoDigits (n % 100)).data) := by
    intro n
    show (natStr (n / 100) ++ "." ++ twoDigits (n % 100)).data = _
    rw [String.data_append, String.data_append]
    simp [twoDigits]
  rw [hexp, hexp] at hdata
  obtain ⟨hpre, hsuf⟩ := List.append_inj' hdata (by simp [twoDigits])
  have hdiv : a / 100 = b / 100 := by
    apply natStr_inj
    exact String.ext hpre
  have hmod : a % 100 = b % 100 := by
    apply twoDigits_inj (Nat.mod_lt _ (by norm_num)) (Nat.mod_lt _ (by norm_num))
    apply String.ext
    simpa using hsuf
  omega

/-- Whatever result a run returns is the assembly of the creation and
cleanup outcomes recorded by the orchestrator. -/
theorem create_ok_eq (validTZ : String → Bool)
    (dateParse : String → String → String → String)
    (cli : CliDict) (u : UserDoc) (app : AppCfg) (ext : ExtWorld)
    (d : Bool) (r : CreateResult)
    (hr : (create_line_items validTZ dateParse cli u app ext d).1 = Except.ok r) :
    r = assembleResult d (gamSuccess ext.creation)
      (creationErrors ext.creation ++ cleanupErrors ext.cleanup)
      ext.li_objs ext.lica_objs := by
  unfold create_line_items at hr
  rcases hg : pipeline_gate validTZ dateParse cli u app ext with ⟨res, tr⟩
  rw [hg] at hr
  cases res with
  | error e => simp at hr
  | ok u2 =>
    simp at hr
    exact hr.symm

/-- Under `reachesPreCreate`, a pre-processing failure is surfaced by the
gate unchanged, after authentication and the network check but before
the creation phase. -/
theorem gate_pre_create_error {validTZ : String → Bool}
    {dateParse : String → String → String → String}
    {cli : CliDict} {u : UserDoc} {app : AppCfg} {ext : ExtWorld} {e : String}
    (h : reachesPreCreate cli u ext)
    (he : Config.pre_create validTZ dateParse app u = Except.error e) :
    pipeline_gate validTZ dateParse cli u app ext =
      (Except.error e,
        [Ev.auth, Ev.networkCheck, Ev.schemaGate, Ev.overrideCheck, Ev.preProcess]) := by
  obtain ⟨h1, h2, h3, h4, h5, h6, h7, h8⟩ := h
  unfold pipeline_gate
  rw [if_neg (by simp [h1]), if_neg h2, if_neg h3, if_neg (by simp [h4]),
    if_neg (by simp [h5]), if_neg (fun hne => hne h6), if_neg (fun hne => hne h7),
    h8, he]

/-- Under `reachesPreCreate`, a successful pre-processing is passed on by
the gate. -/
theorem gate_pre_create_ok {validTZ : String → Bool}
    {dateParse : String → String → String → String}
    {cli : CliDict} {u : UserDoc} {app : AppCfg} {ext : ExtWorld} {u2 : UserDoc}
    (h : reachesPreCreate cli u ext)
    (he : Config.pre_create validTZ dateParse app u = Except.ok u2) :
    pipeline_gate validTZ dateParse cli u app ext =
      (Except.ok u2,
        [Ev.auth, Ev.networkCheck, Ev.schemaGate, Ev.overrideCheck, Ev.preProcess]) := by
  obtain ⟨h1, h2, h3, h4, h5, h6, h7, h8⟩ := h
  unfold pipeline_gate
  rw [if_neg (by simp [h1]), if_neg h2, if_neg h3, if_neg (by simp [h4]),
    if_neg (by simp [h5]), if_neg (fun hne => hne h6), if_neg (fun hne => hne h7),
    h8, he]

end LineItemManager

namespace LineItemManager

/-- C1: every invocation of create_line_items that returns a CreateResult
reports success exactly when the recorded error list — creation phase
errors followed by cleanup phase errors — is empty; in particular a run
whose creation completes cleanly but whose cleanup raises an
external-service error reports failure with exactly the cleanup error,
and with counts drawn from the resources actually created. -/
theorem claim_C1_success_iff_no_errors (validTZ : String → Bool)
    (dateParse : String → String → String → String)
    (cli : CliDict) (u : UserDoc) (app : AppCfg) (ext : ExtWorld)
    (d : Bool) (r : CreateResult)
    (hr : (create_line_items validTZ dateParse cli u app ext d).1 = Except.ok r) :
    (r.success = true ↔ r.errors = []) ∧
    (∀ m, ext.creation = CreationOutcome.ok →
      ext.cleanup = CleanupOutcome.googleAdsError m →
      r.success = false ∧
      r.errors = ["Cleanup: Google Ads Error: " ++ m] ∧
      r.line_item_count = (ext.li_objs.map (fun o => (o.getD []).length)).sum ∧
      r.lica_count = (ext.lica_objs.map List.length).sum) := by
  have heq := create_ok_eq validTZ dateParse cli u app ext d r hr
  subst heq
  constructor
  · cases ext.creation <;> cases ext.cleanup <;>
      simp [assembleResult, gamSuccess, creationErrors, cleanupErrors]
  · intro m hc hcl
    rw [hc, hcl]
    simp [assembleResult, gamSuccess, creationErrors, cleanupErrors,
      List.map_map, Function.comp_def]

/-- C1 witness: in a concrete run with a clean creation phase and a
failing cleanup, the result carries exactly the cleanup error and
success is false. -/
theorem claim_C1_witness :
    (create_line_items tzReal dParse cliW userW appW extC1).1 =
      Except.ok ⟨false, ["Cleanup: Google Ads Error: boom"], 2, 3, [], []⟩ ∧
    (false = true ↔ (["Cleanup: Google Ads Error: boom"] : List String) = []) := by
  have h := claim_C1_success_iff_no_errors tzReal dParse cliW userW appW extC1
    false ⟨false, ["Cleanup: Google Ads Error: boom"], 2, 3, [], []⟩ (by rfl)
  exact ⟨by rfl, h.1⟩

/-- C3: whenever the fatal prefix succeeds, the creation phase runs and
cleanup is invoked right after it, on every creation outcome — normal
completion, each recorded error, and a user interrupt — before the
result is assembled; the interrupt is recorded as an error, and a
cleanup failure appends its error after the creation-phase errors. -/
theorem claim_C3_cleanup_every_path (validTZ : String → Bool)
    (dateParse : String → String → String → String)
    (cli : CliDict) (u : UserDoc) (app : AppCfg) (ext : ExtWorld)
    (d : Bool) (u2 : UserDoc) (tr : List Ev)
    (hg : pipeline_gate validTZ dateParse cli u app ext = (Except.ok u2, tr)) :
    (create_line_items validTZ dateParse cli u app ext d).2 =
      tr ++ [Ev.createPhase, Ev.cleanupCall] ∧
    (∃ r, (create_line_items validTZ dateParse cli u app ext d).1 = Except.ok r ∧
      r.errors = creationErrors ext.creation ++ cleanupErrors ext.cleanup ∧
      (ext.creation = CreationOutcome.keyboardInterrupt →
        "User Interrupt" ∈ r.errors)) := by
  unfold create_line_items
  rw [hg]
  refine ⟨rfl, ⟨_, rfl, by simp [assembleResult], ?_⟩⟩
  intro hi
  rw [hi]
  simp [assembleResult, creationErrors]

/-- C3 witness: in the concrete happy-path run the full step sequence
ends with the creation phase followed by cleanup. -/
theorem claim_C3_witness :
    (create_line_items tzReal dParse cliW userW appW extW).2 =
      [Ev.auth, Ev.networkCheck, Ev.schemaGate, Ev.overrideCheck, Ev.preProcess,
       Ev.createPhase, Ev.cleanupCall] := by
  have h := claim_C3_cleanup_every_path tzReal dParse cliW userW appW extW
    false uW2
    [Ev.auth, Ev.networkCheck, Ev.schemaGate, Ev.overrideCheck, Ev.preProcess]
    (by rfl)
  simpa using h.1

/-- C5 counterexample: installing a new override layer through the cli
setter does not invalidate the expanded-price-list cache — the stale
list from the previous layers remains stored and is returned by a
subsequent cpm_names query, although the canonical expansion of the
installed user document differs. -/
theorem claim_C5_counterexample :
    (Config.setCli cW5 cliW5)._cli = cliW5 ∧
    cliW5 ≠ cW5._cli ∧
    (Config.setCli cW5 cliW5)._cpm_names = some ["9.99"] ∧
    Config.cpm_names appW (Config.setCli cW5 cliW5) =
      some (["9.99"], Config.setCli cW5 cliW5) ∧
    canonical_cpm_names appW userW ≠ ["9.99"] := by
  refine ⟨rfl, by decide, rfl, by decide, by decide⟩

/-- C5 as amended: the cli setter invalidates only the authenticated
client cache and leaves the price-list cache untouched;
set_user_configfile invalidates both; the orchestrator clears all the
caches, including the user document, through reset_config_cache at the
start of each run. -/
theorem claim_C5_amended_invalidation (c : ConfigState) (obj : CliDict)
    (doc : UserDoc) :
    (Config.setCli c obj)._client = none ∧
    (Config.setCli c obj)._cpm_names = c._cpm_names ∧
    (Config.set_user_configfile c doc)._client = none ∧
    (Config.set_user_configfile c doc)._cpm_names = none ∧
    (reset_config_cache c)._client = none ∧
    (reset_config_cache c)._cpm_names = none ∧
    (reset_config_cache c)._schema = none ∧
    (reset_config_cache c)._app = none ∧
    (reset_config_cache c)._user = none :=
  ⟨rfl, rfl, rfl, rfl, rfl, rfl, rfl, rfl, rfl⟩

/-- C7: once the configfile loads, choosing both single-order mode and a
non-empty bidder-code list is a fatal usage error, and so is choosing
neither; in both cases the run aborts with an empty step trace — before
authentication, validation, or any external call. -/
theorem claim_C7_partition_modes (validTZ : String → Bool)
    (dateParse : String → String → String → String)
    (cli : CliDict) (u : UserDoc) (app : AppCfg) (ext : ExtWorld) (d : Bool)
    (hy : ext.yamlOk = true) :
    (cli.single_order = true → cli.bidder_code ≠ [] →
      create_line_items validTZ dateParse cli u app ext d =
        (Except.error "Use of --single-order and --bidder-code is not allowed.",
          [])) ∧
    (cli.single_order = false → cli.bidder_code = [] →
      create_line_items validTZ dateParse cli u app ext d =
        (Except.error
          "You must use --single-order or provide at least one --bidder-code",
          [])) := by
  constructor
  · intro hs hc
    unfold create_line_items pipeline_gate
    rw [if_neg (by simp [hy]), if_neg (by simp [hs]), if_pos ⟨hs, hc⟩]
  · intro hs hc
    unfold create_line_items pipeline_gate
    rw [if_neg (by simp [hy]), if_pos ⟨hs, hc⟩]

/-- C7 witness: both misconfigurations abort with an empty step trace on
concrete inputs. -/
theorem claim_C7_witness :
    create_line_items tzReal dParse cliBoth userW appW extW =
      (Except.error "Use of --single-order and --bidder-code is not allowed.",
        []) ∧
    create_line_items tzReal dParse cliNeither userW appW extW =
      (Except.error
        "You must use --single-order or provide at least one --bidder-code",
        []) := by
  constructor
  · exact (claim_C7_partition_modes tzReal dParse cliBoth userW appW extW
      false rfl).1 rfl (by decide)
  · exact (claim_C7_partition_modes tzReal dParse cliNeither userW appW extW
      false rfl).2 rfl rfl

/-- C10: read_resource maps exactly the four resource names to their
packaged default files, fails on every other name, and never touches the
configuration state. -/
theorem claim_C10_read_resource (reader : String → String) (c : ConfigState) :
    read_resource reader c "config" =
      (Except.ok (reader "line_item_manager.yml"), c) ∧
    read_resource reader c "template" =
      (Except.ok (reader "line_item_template.yml"), c) ∧
    read_resource reader c "settings" =
      (Except.ok (reader "settings.yml"), c) ∧
    read_resource reader c "schema" =
      (Except.ok (reader "schema.yml"), c) ∧
    (∀ r : String, r ≠ "config" → r ≠ "template" → r ≠ "settings" →
      r ≠ "schema" →
      read_resource reader c r = (Except.error ("Unknown resource " ++ r), c)) := by
  refine ⟨rfl, rfl, rfl, rfl, ?_⟩
  intro r h1 h2 h3 h4
  unfold read_resource RESOURCE_MAP
  rw [if_neg (by simpa using h1), if_neg (by simpa using h2),
    if_neg (by simpa using h3), if_neg (by simpa using h4)]

/-- C10 witness: concrete lookups of a known and an unknown resource
name. -/
theorem claim_C10_witness :
    read_resource (fun f => f) cW "config" =
      (Except.ok "line_item_manager.yml", cW) ∧
    read_resource (fun f => f) cW "bogus" =
      (Except.error "Unknown resource bogus", cW) := by
  have h := claim_C10_read_resource (fun f => f) cW
  exact ⟨h.1, h.2.2.2.2 "bogus" (by decide) (by decide) (by decide) (by decide)⟩

end LineItemManager

namespace LineItemManager

/-- C2: on first access with test-run off, cpm_names computes, stores and
returns the canonical expansion — the deduplicated union of the bucket
values, sorted strictly ascending by numeric value and rendered to two
decimals; the rendered list has no duplicates, every bucket value appears,
and two bucket values with the same two-decimal display are the same
value (display-level uniqueness). -/
theorem claim_C2_cpm_names_sorted_unique (app : AppCfg) (c : ConfigState)
    (u : UserDoc) (hu : c._user = some u) (hm : c._cpm_names = none)
    (ht : c._cli.test_run = false) :
    Config.cpm_names app c =
      some (canonical_cpm_names app u,
        { c with _cpm_names := some (canonical_cpm_names app u) }) ∧
    canonical_cpm_names app u =
      (List.insertionSort (· ≤ ·) (cpmCents app u)).map centsFormat ∧
    List.Sorted (· < ·) (List.insertionSort (· ≤ ·) (cpmCents app u)) ∧
    (canonical_cpm_names app u).Nodup ∧
    (∀ v ∈ cpmCents app u, centsFormat v ∈ canonical_cpm_names app u) ∧
    (∀ v w, v ∈ cpmCents app u → w ∈ cpmCents app u →
      centsFormat v = centsFormat w → v = w) := by
  have hsortNodup : (List.insertionSort (· ≤ ·) (cpmCents app u)).Nodup :=
    (List.perm_insertionSort _ _).nodup_iff.mpr (List.nodup_dedup _)
  refine ⟨?_, rfl, ?_, ?_, ?_, ?_⟩
  · simp only [Config.cpm_names, hu, hm, ht]
    rfl
  · exact (List.sorted_insertionSort _ _).lt_of_le hsortNodup
  · exact hsortNodup.map centsFormat_inj
  · intro v hv
    exact List.mem_map_of_mem centsFormat
      ((List.perm_insertionSort _ _).mem_iff.mpr hv)
  · intro v w _ _ h
    exact centsFormat_inj h

/-- C2 witness: concrete first access returns the canonical expansion
and caches it; the rendered list has no duplicates. -/
theorem claim_C2_witness :
    Config.cpm_names appW cW =
      some (canonical_cpm_names appW userW,
        { cW with _cpm_names := some (canonical_cpm_names appW userW) }) ∧
    (canonical_cpm_names appW userW).Nodup := by
  have h := claim_C2_cpm_names_sorted_unique appW cW userW rfl rfl rfl
  exact ⟨h.1, h.2.2.2.1⟩

/-- C4: with test-run on, cpm_names returns only the first
line-item-limit entries of the sorted expansion — still in ascending
order — while the stored canonical list is not truncated, so a later
query with test-run off over the same configuration returns the full
expansion from the cache. -/
theorem claim_C4_test_run_truncation (app : AppCfg) (c : ConfigState)
    (u : UserDoc) (hu : c._user = some u) (hm : c._cpm_names = none)
    (ht : c._cli.test_run = true) :
    Config.cpm_names app c =
      some ((canonical_cpm_names app u).take app.mgr.test_run.line_item_limit,
        { c with _cpm_names := some (canonical_cpm_names app u) }) ∧
    (canonical_cpm_names app u).take app.mgr.test_run.line_item_limit =
      ((List.insertionSort (· ≤ ·) (cpmCents app u)).take
        app.mgr.test_run.line_item_limit).map centsFormat ∧
    List.Sorted (· < ·) ((List.insertionSort (· ≤ ·) (cpmCents app u)).take
      app.mgr.test_run.line_item_limit) ∧
    (∀ cli2 : CliDict, cli2.test_run = false →
      Config.cpm_names app
          (Config.setCli
            { c with _cpm_names := some (canonical_cpm_names app u) } cli2) =
        some (canonical_cpm_names app u,
          Config.setCli
            { c with _cpm_names := some (canonical_cpm_names app u) } cli2)) := by
  have hsortNodup : (List.insertionSort (· ≤ ·) (cpmCents app u)).Nodup :=
    (List.perm_insertionSort _ _).nodup_iff.mpr (List.nodup_dedup _)
  refine ⟨?_, ?_, ?_, ?_⟩
  · simp only [Config.cpm_names, hu, hm, ht]
    rfl
  · exact (List.map_take _ _ _).symm
  · exact List.Pairwise.sublist (List.take_sublist _ _)
      ((List.sorted_insertionSort _ _).lt_of_le hsortNodup)
  · intro cli2 h2
    simp only [Config.cpm_names, Config.setCli, hu, h2]
    rfl

/-- C4 witness: with the concrete limit of 3 and an 11-value expansion,
the test-run query returns the first three names while the cache keeps
all eleven. -/
theorem claim_C4_witness :
    Config.cpm_names appW cW4 =
      some (["0.00", "0.10", "0.20"],
        { cW4 with _cpm_names := some (canonical_cpm_names appW userW) }) := by
  have h := (claim_C4_test_run_truncation appW cW4 userW rfl rfl rfl).1
  rw [h]
  decide

/-- C6: a truthy vcpm rate with a non-standard item type makes
pre_create fail with the configuration error, and any run reaching
pre-processing aborts with that single usage error before the creation
phase; with a standard item type the line item receives the lifetime
viewable-impressions goal carrying the vcpm units and cost_type VCPM;
without vcpm the cost_type is CPM. -/
theorem claim_C6_vcpm_requires_standard (validTZ : String → Bool)
    (dateParse : String → String → String → String)
    (app : AppCfg) (u : UserDoc)
    (htz : validTZ (u.line_item.timezone.getD app.mgr.timezone) = true) :
    (vcpmTruthy u.rate.vcpm = true →
      upperAscii u.line_item.item_type ≠ "STANDARD" →
      Config.pre_create validTZ dateParse app u =
        Except.error
          "Specifying \x27vcpm\x27 requires using line item type \x27standard\x27" ∧
      (∀ cli ext d, reachesPreCreate cli u ext →
        (create_line_items validTZ dateParse cli u app ext d).1 =
          Except.error
            "Specifying \x27vcpm\x27 requires using line item type \x27standard\x27" ∧
        Ev.createPhase ∉ (create_line_items validTZ dateParse cli u app ext d).2)) ∧
    (vcpmTruthy u.rate.vcpm = true →
      upperAscii u.line_item.item_type = "STANDARD" →
      ∃ u2, Config.pre_create validTZ dateParse app u = Except.ok u2 ∧
        u2.line_item.goal =
          some ⟨"LIFETIME", some "VIEWABLE_IMPRESSIONS", u.rate.vcpm⟩ ∧
        u2.rate.cost_type = some "VCPM") ∧
    (vcpmTruthy u.rate.vcpm = false →
      ∃ u2, Config.pre_create validTZ dateParse app u = Except.ok u2 ∧
        u2.rate.cost_type = some "CPM") := by
  refine ⟨?_, ?_, ?_⟩
  · intro hv hst
    have hpre : Config.pre_create validTZ dateParse app u =
        Except.error
          "Specifying \x27vcpm\x27 requires using line item type \x27standard\x27" := by
      simp only [Config.pre_create, htz, hv]
      simp [hst]
    refine ⟨hpre, ?_⟩
    intro cli ext d hreach
    have hg := gate_pre_create_error hreach hpre
    constructor
    · unfold create_line_items
      rw [hg]
    · unfold create_line_items
      rw [hg]
      show Ev.createPhase ∉
        [Ev.auth, Ev.networkCheck, Ev.schemaGate, Ev.overrideCheck, Ev.preProcess]
      decide
  · intro hv hst
    simp only [Config.pre_create, htz, hv]
    simp only [hst]
    simp
  · intro hv
    simp only [Config.pre_create, htz, hv]
    cases hb : upperAscii u.line_item.item_type == "SPONSORSHIP" <;> simp [hb]

/-- C6 witness: a concrete configuration with vcpm set and a
price-priority item type fails pre-processing with the configuration
error. -/
theorem claim_C6_witness :
    Config.pre_create tzReal dParse appW userW6 =
      Except.error
        "Specifying \x27vcpm\x27 requires using line item type \x27standard\x27" := by
  have h := (claim_C6_vcpm_requires_standard tzReal dParse appW userW6
    (by rfl)).1 (by rfl) (by decide)
  exact h.1

/-- C8 counterexample: with an unrecognized timezone the run does fail
with the Unknown Time Zone configuration error, but the step trace
already contains the network verification — an external call — so the
failure does not abort before any external call. -/
theorem claim_C8_counterexample :
    (create_line_items tzReal dParse cliW userW8 appW extW).1 =
      Except.error "Unknown Time Zone, Mars/Olympus" ∧
    Ev.networkCheck ∈ (create_line_items tzReal dParse cliW userW8 appW extW).2 ∧
    Ev.isExternal Ev.networkCheck = true ∧
    (create_line_items tzReal dParse cliW userW8 appW extW).2.filter
      (fun e => e.isExternal) ≠ [] := by
  exact ⟨by rfl, by decide, rfl, by decide⟩

/-- C8 as amended: an unrecognized timezone identifier fails
pre-processing with the Unknown Time Zone error, surfaced as the run's
single fatal usage error, and aborts before the creation phase — no
creation or cleanup call happens — although authentication and network
verification have already run. -/
theorem claim_C8_unknown_timezone (validTZ : String → Bool)
    (dateParse : String → String → String → String)
    (cli : CliDict) (u : UserDoc) (app : AppCfg) (ext : ExtWorld) (d : Bool)
    (h : reachesPreCreate cli u ext)
    (htz : validTZ (u.line_item.timezone.getD app.mgr.timezone) = false) :
    (create_line_items validTZ dateParse cli u app ext d).1 =
      Except.error
        ("Unknown Time Zone, " ++ u.line_item.timezone.getD app.mgr.timezone) ∧
    Ev.createPhase ∉ (create_line_items validTZ dateParse cli u app ext d).2 ∧
    Ev.cleanupCall ∉ (create_line_items validTZ dateParse cli u app ext d).2 ∧
    Ev.auth ∈ (create_line_items validTZ dateParse cli u app ext d).2 ∧
    Ev.networkCheck ∈ (create_line_items validTZ dateParse cli u app ext d).2 := by
  have hpre : Config.pre_create validTZ dateParse app u =
      Except.error
        ("Unknown Time Zone, " ++ u.line_item.timezone.getD app.mgr.timezone) := by
    simp only [Config.pre_create, htz]
    rfl
  have hg := gate_pre_create_error h hpre
  unfold create_line_items
  rw [hg]
  refine ⟨rfl, ?_, ?_, ?_, ?_⟩
  · show Ev.createPhase ∉
      [Ev.auth, Ev.networkCheck, Ev.schemaGate, Ev.overrideCheck, Ev.preProcess]
    decide
  · show Ev.cleanupCall ∉
      [Ev.auth, Ev.networkCheck, Ev.schemaGate, Ev.overrideCheck, Ev.preProcess]
    decide
  · show Ev.auth ∈
      [Ev.auth, Ev.networkCheck, Ev.schemaGate, Ev.overrideCheck, Ev.preProcess]
    decide
  · show Ev.networkCheck ∈
      [Ev.auth, Ev.networkCheck, Ev.schemaGate, Ev.overrideCheck, Ev.preProcess]
    decide

/-- C8 witness for the amended statement: the concrete bad-timezone run
fails with the Unknown Time Zone usage error. -/
theorem claim_C8_witness :
    (create_line_items tzReal dParse cliW userW8 appW extW false).1 =
      Except.error "Unknown Time Zone, Mars/Olympus" := by
  have h := claim_C8_unknown_timezone tzReal dParse cliW userW8 appW extW false
    ⟨rfl, by decide, by decide, rfl, rfl, rfl, rfl, rfl⟩ (by rfl)
  exact h.1

/-- C9: the include_details flag never influences the step trace, the
fatal-error behavior, or the success, errors and count fields of the
result; with the flag off the detail lists are empty, and with it on
they are exactly the created line items and creative-association lists
the counts are derived from. -/
theorem claim_C9_include_details_frame (validTZ : String → Bool)
    (dateParse : String → String → String → String)
    (cli : CliDict) (u : UserDoc) (app : AppCfg) (ext : ExtWorld) :
    (create_line_items validTZ dateParse cli u app ext true).2 =
      (create_line_items validTZ dateParse cli u app ext false).2 ∧
    (∀ e, (create_line_items validTZ dateParse cli u app ext true).1 =
        Except.error e ↔
      (create_line_items validTZ dateParse cli u app ext false).1 =
        Except.error e) ∧
    (∀ a b, (create_line_items validTZ dateParse cli u app ext true).1 =
        Except.ok a →
      (create_line_items validTZ dateParse cli u app ext false).1 =
        Except.ok b →
      a.success = b.success ∧ a.errors = b.errors ∧
      a.line_item_count = b.line_item_count ∧ a.lica_count = b.lica_count ∧
      b.line_items = [] ∧ b.licas = [] ∧
      a.line_items = (ext.li_objs.map (fun o => o.getD [])).flatten ∧
      a.licas = ext.lica_objs ∧
      a.line_item_count = a.line_items.length ∧
      a.lica_count = (a.licas.map List.length).sum) := by
  unfold create_line_items
  rcases hg : pipeline_gate validTZ dateParse cli u app ext with ⟨res, tr⟩
  cases res with
  | error e =>
    refine ⟨rfl, fun e2 => Iff.rfl, ?_⟩
    intro a b ha hb
    simp at ha
  | ok u2 =>
    refine ⟨rfl, fun e2 => ?_, ?_⟩
    · constructor <;> intro hx <;> simp at hx
    · intro a b ha hb
      simp only [Except.ok.injEq] at ha hb
      subst ha
      subst hb
      refine ⟨rfl, rfl, rfl, rfl, rfl, rfl, rfl, rfl, ?_, rfl⟩
      simp [assembleResult, List.length_flatten]

/-- C9 witness: the concrete happy-path run with details on and off
agrees on success, errors and counts, and the detail lists carry exactly
the created resources when requested. -/
theorem claim_C9_witness :
    (create_line_items tzReal dParse cliW userW appW extW true).1 =
      Except.ok ⟨true, [], 2, 3, [1, 2], [[5], [6, 7]]⟩ ∧
    (create_line_items tzReal dParse cliW userW appW extW false).1 =
      Except.ok ⟨true, [], 2, 3, [], []⟩ ∧
    (true = true ∧ ([] : List String) = [] ∧ (2 : Nat) = 2 ∧ (3 : Nat) = 3 ∧
      ([] : List Nat) = [] ∧ ([] : List (List Nat)) = [] ∧
      ([1, 2] : List Nat) = (extW.li_objs.map (fun o => o.getD [])).flatten ∧
      ([[5], [6, 7]] : List (List Nat)) = extW.lica_objs ∧
      (2 : Nat) = ([1, 2] : List Nat).length ∧
      (3 : Nat) = (([[5], [6, 7]] : List (List Nat)).map List.length).sum) := by
  have h := (claim_C9_include_details_frame tzReal dParse cliW userW appW
    extW).2.2 ⟨true, [], 2, 3, [1, 2], [[5], [6, 7]]⟩ ⟨true, [], 2, 3, [], []⟩
    (by rfl) (by rfl)
  exact ⟨by rfl, by rfl, h⟩

end LineItemManager
